import Mathlib

/-!
Verification of the Jitter live-patching engine against its specification.

The Python sources are shallowly embedded: pure string/list manipulation is
translated to Lean functions, the in-memory function patch of
`replace_impl.py` is modelled as an update of an explicit heap mapping
function identities to function objects, and fallible operations return
`Except`.
-/

namespace ReplaceImpl

/-- One parameter of a Python signature, as `inspect.signature` exposes it.
Only the count matters to the validator; name, default and the textual
type are carried so theorems can state their irrelevance. -/
structure Param where
  name : String
  annotStr : Option String := none
  defaultVal : Option String := none
deriving DecidableEq, Repr

/-- An `inspect.Signature`: the ordered parameter list. -/
structure Signature where
  parameters : List Param
deriving DecidableEq, Repr

/-- A compiled code object (`types.CodeType`): its `co_name`, the parameter
list its signature exposes, and the semantics of its body, modelled as a
function from concrete argument lists to an integer result. -/
structure CodeObject where
  co_name : String
  params : List Param
  run : List Int → Int

/-- A constant appearing in a compiled module's `co_consts`. -/
inductive PyConst where
  | codeConst (c : CodeObject) : PyConst
  | strConst (s : String) : PyConst
  | noneConst : PyConst

/-- The result of `compile(new_code, "<string>", "exec")`: a module code
object whose `co_consts` hold the code objects of the top-level defs. -/
structure CompiledModule where
  co_consts : List PyConst

/-- A Python function object: a fixed identity holding a mutable `__code__`. -/
structure PyFunc where
  code : CodeObject

/-- The mutable store of function objects, indexed by identity (`id()`). -/
def Heap : Type := Nat → PyFunc

/-- The search loop of `replace_function_implementation` (replace_impl.py
lines 26-30): the first constant that is a code object whose `co_name` is
not `"<module>"`. -/
def findFuncCode : List PyConst → Option CodeObject
  | [] => none
  | PyConst.codeConst c :: rest =>
      if c.co_name ≠ "<module>" then some c else findFuncCode rest
  | _ :: rest => findFuncCode rest

/-- Whether a constant is the code object of a top-level callable
definition: exactly the condition of the search loop. -/
def isFuncDefConst : PyConst → Bool
  | PyConst.codeConst co => co.co_name != "<module>"
  | _ => false

/-- Number of top-level callable definitions in a compiled candidate. -/
def countFuncDefs (m : CompiledModule) : Nat :=
  m.co_consts.countP isFuncDefConst

/-- Validator from replace_impl.py lines 60-73: only the parameter counts
are compared; names, defaults and annotations are ignored. -/
def _parameter_structures_match (sig1 sig2 : Signature) : Bool :=
  sig1.parameters.length == sig2.parameters.length

/-- The errors `replace_function_implementation` can raise after a
successful compile: the two `ValueError` cases of replace_impl.py. -/
inductive ReplaceError where
  | noFunctionFound : ReplaceError
  | parameterMismatch : ReplaceError
deriving DecidableEq, Repr

/-- replace_impl.py `replace_function_implementation`: locate the first
top-level code object of the compiled candidate, validate parameter-count
compatibility against the target's current signature, and on success
mutate the target function object in place (`func.__code__ = ...`),
leaving every other identity of the heap untouched. -/
def replace_function_implementation (heap : Heap) (fid : Nat)
    (mod : CompiledModule) : Except ReplaceError Heap :=
  match findFuncCode mod.co_consts with
  | none => Except.error ReplaceError.noFunctionFound
  | some codeObj =>
      if ¬ _parameter_structures_match ⟨(heap fid).code.params⟩ ⟨codeObj.params⟩ then
        Except.error ReplaceError.parameterMismatch
      else
        Except.ok (fun j => if j = fid then { code := codeObj } else heap j)

/-- Calling a function object through its identity. -/
def callFunc (heap : Heap) (fid : Nat) (args : List Int) : Int :=
  (heap fid).code.run args

/-- Calling through a name bound in some environment: the name resolves to
an identity captured earlier, and the current heap supplies the body. -/
def callByName (env : String → Option Nat) (heap : Heap) (n : String)
    (args : List Int) : Option Int :=
  match env n with
  | none => none
  | some fid => some (callFunc heap fid args)

end ReplaceImpl

namespace Inspection

/-- Source information that `inspect.getfile` / `inspect.getsourcelines`
recover for an introspectable object: filename, 1-based start line, and
the verbatim source lines. -/
structure SourceInfo where
  filename : String
  start_line : Int
  source_lines : List String
deriving DecidableEq, Repr

/-- inspection.py `CustomTypeInfo`: information about a custom type found
in function arguments; the source fields are `none` when the definition
could not be recovered. -/
structure CustomTypeInfo where
  name : String
  filename : Option String
  source_code : Option String
  start_line : Option Int
  end_line : Option Int
deriving DecidableEq, Repr

/-- inspection.py `ArgumentInfo`: one declared parameter, its raw textual
type (Python field `type_annotation`, held here as `annotStr`), and the
custom types extracted from it. -/
structure ArgumentInfo where
  name : String
  annotStr : Option String
  custom_types : List CustomTypeInfo
deriving DecidableEq, Repr

/-- A resolved Python type expression, as the recursion of
`_extract_custom_types_from_annotation` sees it: the literal `None`, a
leaf type object (carrying its `__name__`, its `__module__` when present,
whether it is a member of the hard-coded builtin tuple, and its
recoverable source), or a parameterized/union expression whose
`get_origin` is non-None and whose `get_args` are the components. -/
inductive PyType where
  | noneTy : PyType
  | leaf (name : String) (module : Option String) (inBuiltinTuple : Bool)
      (srcInfo : Option SourceInfo) : PyType
  | generic (args : List PyType) : PyType

/-- inspection.py `_is_builtin_type` (lines 28-48): `None` is builtin; so
is a member of the builtin-types tuple, and anything whose `__module__`
is `builtins` or `typing`. A generic expression reaching this check
matches none of those cases. -/
def _is_builtin_type : PyType → Bool
  | PyType.noneTy => true
  | PyType.leaf _ module inTuple _ =>
      if inTuple then true
      else
        match module with
        | some m => m == "builtins" || m == "typing"
        | none => false
  | PyType.generic _ => false

/-- How inspection.py lines 74-96 build a `CustomTypeInfo` for a
non-builtin leaf: from `inspect` source data when available, with `None`
fields otherwise. -/
def mkCustomTypeInfo (name : String) (srcInfo : Option SourceInfo) :
    CustomTypeInfo :=
  match srcInfo with
  | some si =>
      { name := name
        filename := some si.filename
        source_code := some (String.join si.source_lines)
        start_line := some si.start_line
        end_line := some (si.start_line + si.source_lines.length - 1) }
  | none =>
      { name := name, filename := none, source_code := none
        start_line := none, end_line := none }

/-- inspection.py `_extract_custom_types_from_annotation` (lines 51-98):
`None` yields nothing; a generic/union expression recurses into its
arguments and concatenates; a builtin leaf is skipped; any other leaf is
reported as one custom type. -/
def extractCustomTypes : PyType → List CustomTypeInfo
  | PyType.noneTy => []
  | PyType.leaf n m b s =>
      if _is_builtin_type (PyType.leaf n m b s) then []
      else [mkCustomTypeInfo n s]
  | PyType.generic args =>
      (args.attach.map (fun a => extractCustomTypes a.1)).flatten
decreasing_by
  have h := List.sizeOf_lt_of_mem a.2
  simp only [PyType.generic.sizeOf_spec]
  omega

/-- Modelled from the spec: the spec classifies a resolved leaf as custom
iff it is not a built-in, primitive or standard-library type. The
standard library is represented by a (non-exhaustive) list of its module
names; membership of a leaf's `__module__` in it makes the leaf a
standard-library type. -/
def stdlibModules : List String :=
  ["builtins", "typing", "collections", "pathlib", "datetime", "decimal",
   "fractions", "itertools", "functools", "os", "re", "abc", "enum",
   "dataclasses", "io", "uuid"]

/-- Modelled from the spec: a type the spec counts as
built-in/primitive/standard-library, hence never to be reported custom. -/
def specIsBuiltinOrStdlib : PyType → Bool
  | PyType.noneTy => true
  | PyType.leaf _ module inTuple _ =>
      inTuple ||
        (match module with
         | some m => stdlibModules.contains m
         | none => false)
  | PyType.generic _ => false

/-- inspection.py `FunctionLocation`: filename, 1-based inclusive line
range, verbatim source lines, and extracted argument information. -/
structure FunctionLocation where
  filename : String
  start_line : Int
  end_line : Int
  source_lines : List String
  arguments : List ArgumentInfo
deriving DecidableEq, Repr

/-- `FunctionLocation.source_code`: the source lines joined back together. -/
def FunctionLocation.source_code (loc : FunctionLocation) : String :=
  String.join loc.source_lines

/-- `FunctionLocation.line_count`: number of source lines. -/
def FunctionLocation.line_count (loc : FunctionLocation) : Nat :=
  loc.source_lines.length

/-- inspection.py `get_function_lines` (lines 159-208), and identically
get_function_info.py lines 68-76, after `inspect.getsourcelines` and
`inspect.getfile` succeed: the returned location's `end_line` is computed
as `start_line + len(source_lines) - 1`. -/
def get_function_lines (filename : String) (source_lines : List String)
    (start_line : Int) (arguments : List ArgumentInfo) : FunctionLocation :=
  { filename := filename
    start_line := start_line
    end_line := start_line + source_lines.length - 1
    source_lines := source_lines
    arguments := arguments }

end Inspection

namespace Replacement

open Inspection

/-- Python strings on the durable-rewrite path are modelled as explicit
character lists, so that every operation on them is executable by the
kernel. -/
abbrev PyStr := List Char

/-- Whitespace as Python's `str.strip` family sees it. -/
def isWS (c : Char) : Bool := c.isWhitespace

/-- Python `str.strip()` with no argument: remove leading and trailing
whitespace. -/
def pyStrip (s : PyStr) : PyStr :=
  ((s.dropWhile isWS).reverse.dropWhile isWS).reverse

/-- Python `str.lstrip()` with no argument. -/
def pyLstrip (s : PyStr) : PyStr := s.dropWhile isWS

/-- Python `s.startswith(pre)`. -/
def pyStartsWith (pre s : PyStr) : Bool := pre.isPrefixOf s

/-- Helper of `splitlines`: split at every newline character, keeping a
final empty piece when the text ends in a newline. -/
def splitAll : PyStr → List PyStr
  | [] => [[]]
  | c :: rest =>
    match splitAll rest, c == '\n' with
    | r, true => [] :: r
    | [], false => [[c]]
    | line :: r, false => (c :: line) :: r

/-- Python `str.splitlines()` restricted to `'\n'` separators: no final
empty piece is produced for a trailing newline, and the empty string has
no lines. -/
def splitlines (s : PyStr) : List PyStr :=
  match s with
  | [] => []
  | _ => if s.getLast? = some '\n' then (splitAll s).dropLast else splitAll s

/-- replacement.py `_get_indentation` (lines 69-71): the leading
whitespace of a line (the match of the regex prefix of whitespace). -/
def _get_indent (line : PyStr) : PyStr :=
  line.takeWhile isWS

/-- The reflow loop of replacement.py `_process_new_implementation`
(lines 93-102): the first non-blank line is dedented and re-indented to
the base, later non-blank lines get the base prefix on top of their own
indent, blank lines become bare newlines. -/
def reflowedLines (new_implementation : PyStr) (baseIndent : PyStr) :
    List PyStr :=
  (splitlines new_implementation).mapIdx fun i line =>
    if pyStrip line ≠ [] then
      if i = 0 then baseIndent ++ pyLstrip line ++ ['\n']
      else baseIndent ++ line ++ ['\n']
    else ['\n']

/-- replacement.py `_process_new_implementation` (lines 74-103): reject a
blank candidate; otherwise return the candidate's lines reflowed to the
base indent. -/
def _process_new_implementation (new_implementation : PyStr)
    (baseIndent : PyStr) : Except String (List PyStr) :=
  if pyStrip new_implementation = [] then
    Except.error "New implementation cannot be empty"
  else
    Except.ok (reflowedLines new_implementation baseIndent)

/-- The `ValueError` cases of replacement.py `replace_function_implementation`,
in the order the code checks them. -/
inductive DurableError where
  | notAFunctionDef : DurableError
  | staleLocation : DurableError
  | emptyImplementation : DurableError
deriving DecidableEq, Repr

/-- replacement.py `replace_function_implementation` (lines 7-66), with the
target file given as its current list of lines (each line ending in a
newline, as `readlines` yields): check the candidate starts with `def `
after stripping, check the recorded range is valid for the current file,
compute the base indent from the recorded first source line, reflow the
candidate, and splice it over lines `start_line..end_line` (1-based,
inclusive). On any error no new file content is produced. -/
def replace_function_implementation (location : FunctionLocation)
    (new_implementation : PyStr) (lines : List PyStr) :
    Except DurableError (List PyStr) :=
  if ¬ pyStartsWith "def ".toList (pyStrip new_implementation) then
    Except.error DurableError.notAFunctionDef
  else if location.start_line < 1 ∨ location.end_line > (lines.length : Int) then
    Except.error DurableError.staleLocation
  else
    let original_first_line := (location.source_lines.headD "").toList
    let baseIndent := _get_indent original_first_line
    match _process_new_implementation new_implementation baseIndent with
    | Except.error _ => Except.error DurableError.emptyImplementation
    | Except.ok processed_lines =>
        let start_idx := (location.start_line - 1).toNat
        let end_idx := location.end_line.toNat
        Except.ok (lines.take start_idx ++ processed_lines ++ lines.drop end_idx)

/-- The file content after attempting a durable replacement: the spliced
lines when the call succeeds, the untouched original content when it
raises (the write at replacement.py line 63 only happens on success). -/
def applied_file (location : FunctionLocation) (new_implementation : PyStr)
    (lines : List PyStr) : List PyStr :=
  match replace_function_implementation location new_implementation lines with
  | Except.ok out => out
  | Except.error _ => lines

end Replacement

namespace Generation

open Inspection

/-- The inputs `get_llm_implementation_suggestion` reads from the target
callable: its `__name__`, the text of `inspect.signature`, its
`__doc__`, its `inspect.getsource` text, and the `FunctionLocation`
from `get_function_lines` (`none` models the exception branch of
generator.py lines 89-110, in which the argument-type context is empty). -/
structure TargetDescriptor where
  name : String
  sigStr : String
  doc : Option String
  source : String
  loc : Option FunctionLocation
deriving DecidableEq, Repr

/-- Python truthiness of a `source_code` field: present and non-empty. -/
def hasTruthySource (ct : CustomTypeInfo) : Bool :=
  match ct.source_code with
  | some s => s != ""
  | none => false

/-- generator.py lines 94-98: collect the custom types of all arguments
into an insertion-ordered dict keyed by name, keeping the first
occurrence of each name and only types with a truthy `source_code`. -/
def collectCustomTypes (args : List ArgumentInfo) : List CustomTypeInfo :=
  (args.map (fun a => a.custom_types)).flatten.foldl
    (fun acc ct =>
      if acc.all (fun c => c.name != ct.name) && hasTruthySource ct then
        acc ++ [ct]
      else acc)
    []

/-- Rendering of an `Option String` inside a Python f-string: `None` when
absent. -/
def optStr (o : Option String) : String := o.getD "None"

/-- Rendering of an `Option Int` inside a Python f-string. -/
def optIntStr (o : Option Int) : String :=
  match o with
  | some i => toString i
  | none => "None"

/-- generator.py lines 104-107: one custom-type block of the
argument-type context. -/
def renderCustomType (ct : CustomTypeInfo) : String :=
  "--- " ++ ct.name ++ " (from " ++ optStr ct.filename ++ ":" ++
    optIntStr ct.start_line ++ "-" ++ optIntStr ct.end_line ++ ") ---\n" ++
    (ct.source_code.getD "") ++ "\n"

/-- generator.py lines 91-110: the argument-type context, empty when the
location lookup failed or no collected custom type remains. -/
def argTypesContext (loc : Option FunctionLocation) : String :=
  match loc with
  | none => ""
  | some l =>
      let cts := collectCustomTypes l.arguments
      if cts.isEmpty then ""
      else
        "\n\nARGUMENT TYPE DEFINITIONS:\n" ++
          "The function uses these custom types in its arguments:\n\n" ++
          String.join (cts.map renderCustomType)

/-- generator.py line 83: `call_stack[-10:] if len(call_stack) > 10 else
call_stack` — the last 10 frames (a `[-10:]` slice keeps the final 10
elements, i.e. drops `length - 10` from the front), or the whole chain
when it has at most 10. -/
def limitedCallStack (chain : List FunctionLocation) : List FunctionLocation :=
  if chain.length > 10 then chain.drop (chain.length - 10) else chain

/-- generator.py lines 123-126: one frame of the call-stack context,
labelled with its 1-based depth and location. -/
def renderFrame (i : Nat) (fl : FunctionLocation) : String :=
  "--- Call Stack Level " ++ toString (i + 1) ++ ": " ++ fl.filename ++ ":" ++
    toString fl.start_line ++ "-" ++ toString fl.end_line ++ " ---\n" ++
    fl.source_code ++ "\n"

/-- The loop of generator.py lines 123-126 over the retained frames, in
order. -/
def renderFrames (frames : List FunctionLocation) : String :=
  String.join (frames.mapIdx renderFrame)

/-- generator.py lines 112-122: everything the incremental `+=` building
of `call_stack_context` accumulates before the frame loop starts.
`__doc__` is included only when truthy (present and non-empty). -/
def callStackContextBeforeFrames (d : TargetDescriptor)
    (chain : List FunctionLocation) : String :=
  "\n\nTARGET FUNCTION TO IMPLEMENT:\n" ++
    "Function name: " ++ d.name ++ "\n" ++
    "Function signature: " ++ d.name ++ d.sigStr ++ "\n" ++
    (match d.doc with
     | some doc => if doc ≠ "" then "Function docstring: " ++ doc ++ "\n" else ""
     | none => "") ++
    argTypesContext d.loc ++
    "\n\nCALL STACK CONTEXT:\n" ++
    "Here are the functions in the call stack that led to " ++ d.name ++
    " being called (showing last " ++ toString (limitedCallStack chain).length ++
    " of " ++ toString chain.length ++ "):\n\n"

/-- generator.py lines 112-126: the target-function and call-stack
context appended to the system prompt; the retained frames are rendered
last, in order. -/
def callStackContext (d : TargetDescriptor) (chain : List FunctionLocation) :
    String :=
  callStackContextBeforeFrames d chain ++ renderFrames (limitedCallStack chain)

/-- generator.py lines 128-134: the fixed instructional preamble of the
system prompt. -/
def systemPreamble : String :=
  "You are a Python code generator. Given a function definition and its call stack context, generate a complete implementation.\n\n" ++
  "The call stack shows you exactly how this function is being used and what the calling functions expect.\n" ++
  "Use this context to understand the function's purpose and generate an appropriate implementation.\n\n" ++
  "Return only valid Python code that implements the function based on its signature, docstring, and calling context.\n" ++
  "The implementation should be practical and follow Python best practices."

/-- The generator request/response contract of the spec (section 6): the
two text fields handed to `call_llm` in generator.py lines 141-146. -/
structure GenerationRequest where
  system_instructions : String
  description : String
deriving DecidableEq, Repr

/-- The request-building part of generator.py
`get_llm_implementation_suggestion` (lines 69-136): a pure function of
the target descriptor and the captured call chain. -/
def build_request (d : TargetDescriptor) (chain : List FunctionLocation) :
    GenerationRequest :=
  { system_instructions := systemPreamble ++ callStackContext d chain
    description :=
      "Generate an implementation for this Python function:\n\n" ++ d.source }

end Generation

section Examples

open Inspection ReplaceImpl Replacement Generation

/-- The original two-parameter `add` of the replace_impl.py example: a code
object computing the sum of its two arguments. -/
def addCode : ReplaceImpl.CodeObject :=
  { co_name := "add"
    params := [{ name := "a", annotStr := some "int" },
               { name := "b", annotStr := some "int" }]
    run := fun args =>
      match args with
      | [a, b] => a + b
      | _ => 0 }

/-- The candidate of the replace_impl.py example: same name and arity, body
returns the product. -/
def mulCode : ReplaceImpl.CodeObject :=
  { co_name := "add"
    params := [{ name := "a", annotStr := some "int" },
               { name := "b", annotStr := some "int" }]
    run := fun args =>
      match args with
      | [a, b] => a * b
      | _ => 0 }

/-- A heap whose every identity holds the original `add`. -/
def exHeapAdd : ReplaceImpl.Heap := fun _ => { code := addCode }

/-- An environment in which both the name `add` and a previously captured
alias refer to the same function identity 0. -/
def exEnvAdd : String → Option Nat := fun n =>
  if n = "add" ∨ n = "original_add_reference" then some 0 else none

/-- The compiled candidate module: its constants hold the `add` code object
computing the product. -/
def mulMod : ReplaceImpl.CompiledModule :=
  { co_consts := [ReplaceImpl.PyConst.codeConst mulCode,
                  ReplaceImpl.PyConst.strConst "add",
                  ReplaceImpl.PyConst.noneConst] }

/-- A zero-parameter code object returning 1, first definition of the
two-definition candidate. -/
def firstDefCode : ReplaceImpl.CodeObject :=
  { co_name := "f", params := [], run := fun _ => 1 }

/-- A zero-parameter code object returning 2, second definition of the
two-definition candidate. -/
def secondDefCode : ReplaceImpl.CodeObject :=
  { co_name := "g", params := [], run := fun _ => 2 }

/-- A compiled candidate containing two top-level callable definitions. -/
def twoDefMod : ReplaceImpl.CompiledModule :=
  { co_consts := [ReplaceImpl.PyConst.codeConst firstDefCode,
                  ReplaceImpl.PyConst.codeConst secondDefCode] }

/-- A heap whose identities hold a zero-parameter placeholder. -/
def zeroArgHeap : ReplaceImpl.Heap := fun _ =>
  { code := { co_name := "target", params := [], run := fun _ => 0 } }

/-- A concrete 10-line source file whose function occupies lines 4-6. -/
def exFileLines : List Replacement.PyStr :=
  ["line1\n".toList, "line2\n".toList, "line3\n".toList,
   "def old(x):\n".toList, "    a = 1\n".toList, "    return a\n".toList,
   "line7\n".toList, "line8\n".toList, "line9\n".toList, "line10\n".toList]

/-- The recorded location of the 3-line function at lines 4-6 of
`exFileLines`. -/
def exLoc4 : Inspection.FunctionLocation :=
  { filename := "demo.py"
    start_line := 4
    end_line := 6
    source_lines := ["def old(x):\n", "    a = 1\n", "    return a\n"]
    arguments := [] }

/-- A 5-line replacement function definition. -/
def exImpl5 : Replacement.PyStr :=
  "def old(x):\n    y = x + 1\n    z = y * 2\n    w = z - 1\n    return w".toList

/-- A candidate that is an `async def`, hence does not start with `def `
after stripping. -/
def asyncImpl : Replacement.PyStr := "async def fetch(x):\n    return x".toList

/-- A frame of a synthetic call chain. -/
def mkFrame (i : Nat) : Inspection.FunctionLocation :=
  { filename := "f.py"
    start_line := Int.ofNat i
    end_line := Int.ofNat i
    source_lines := ["pass\n"]
    arguments := [] }

/-- A synthetic call chain of 12 frames. -/
def exChain12 : List Inspection.FunctionLocation := (List.range 12).map mkFrame

/-- A concrete target descriptor for the request builder. -/
def exDesc : Generation.TargetDescriptor :=
  { name := "add"
    sigStr := "(a: int, b: int) -> int"
    doc := some "Add two numbers."
    source := "def add(a: int, b: int) -> int:\n    raise NotImplementedError\n"
    loc := none }

/-- A candidate signature with the same parameter count as `add` but
entirely different names, annotations and defaults. -/
def exSigRenamed : ReplaceImpl.Signature :=
  { parameters := [{ name := "x", annotStr := some "str", defaultVal := some "s" },
                   { name := "y", annotStr := none, defaultVal := none }] }

/-- A compiled candidate whose single definition carries the renamed
two-parameter signature. -/
def renamedCode : ReplaceImpl.CodeObject :=
  { co_name := "add", params := exSigRenamed.parameters, run := fun _ => 0 }

/-- The module holding `renamedCode` as its only definition. -/
def renamedMod : ReplaceImpl.CompiledModule :=
  { co_consts := [ReplaceImpl.PyConst.codeConst renamedCode] }

/-- A standard-library type as the extractor sees it: `collections.OrderedDict`,
not a member of the builtin tuple, its module neither `builtins` nor
`typing`, with recoverable source. -/
def orderedDictTy : Inspection.PyType :=
  Inspection.PyType.leaf "OrderedDict" (some "collections") false
    (some { filename := "collections/__init__.py"
            start_line := 100
            source_lines := ["class OrderedDict(dict):\n", "    ...\n"] })

end Examples

section HelperLemmas

open Replacement ReplaceImpl

/-- A string whose stripped form starts with `def ` does not strip to the
empty string. -/
theorem strip_ne_of_def (s : Replacement.PyStr)
    (h : pyStartsWith "def ".toList (pyStrip s) = true) :
    ¬ pyStrip s = [] := by
  intro h0
  rw [h0] at h
  exact absurd h (by decide)

/-- The search loop finds no code object exactly when the module contains
no top-level callable definition. -/
theorem findFuncCode_none_iff (l : List ReplaceImpl.PyConst) :
    findFuncCode l = none ↔ l.countP isFuncDefConst = 0 := by
  induction l with
  | nil => simp [findFuncCode, List.countP_nil]
  | cons hd tl ih =>
    cases hd with
    | codeConst c =>
      by_cases h : c.co_name = "<module>"
      · simp [findFuncCode, h, isFuncDefConst, List.countP_cons, ih]
      · simp [findFuncCode, h, isFuncDefConst, List.countP_cons]
    | strConst s => simp [findFuncCode, isFuncDefConst, List.countP_cons, ih]
    | noneConst => simp [findFuncCode, isFuncDefConst, List.countP_cons, ih]

/-- A non-blank candidate is processed successfully into its reflowed
lines. -/
theorem process_ok (impl base : Replacement.PyStr) (hne : ¬ pyStrip impl = []) :
    _process_new_implementation impl base =
      Except.ok (reflowedLines impl base) := by
  simp [_process_new_implementation, hne]

/-- With a candidate that starts with `def ` after stripping and a valid
recorded range, the durable replacement returns the spliced file. -/
theorem replace_ok_of_valid (loc : Inspection.FunctionLocation)
    (impl : Replacement.PyStr) (lines : List Replacement.PyStr)
    (hdef : pyStartsWith "def ".toList (pyStrip impl) = true)
    (hrange : ¬ (loc.start_line < 1 ∨ loc.end_line > (lines.length : Int))) :
    Replacement.replace_function_implementation loc impl lines =
      Except.ok (lines.take (loc.start_line - 1).toNat ++
        reflowedLines impl ( _get_indent (loc.source_lines.headD "").toList) ++
        lines.drop loc.end_line.toNat) := by
  have hne := strip_ne_of_def impl hdef
  have hdef' : pyStartsWith ['d', 'e', 'f', ' '] (pyStrip impl) = true := hdef
  simp [Replacement.replace_function_implementation, hdef', hrange,
    process_ok impl _ hne]

end HelperLemmas

section Claims

open Inspection ReplaceImpl Replacement Generation

/-- C9: every `FunctionLocation` returned by `get_function_lines` satisfies
`end_line = start_line + (number of source lines) - 1`, for every callable
for which extraction succeeds (that is, for every source-line list, start
line, filename and argument list `inspect` hands back). -/
theorem c9_end_line_invariant (filename : String) (source_lines : List String)
    (start_line : Int) (arguments : List Inspection.ArgumentInfo) :
    (get_function_lines filename source_lines start_line arguments).end_line =
      (get_function_lines filename source_lines start_line arguments).start_line +
        ((get_function_lines filename source_lines start_line arguments).line_count : Int) - 1 :=
  rfl

/-- C5: the generation request text built for the external generator is a
deterministic, pure transformation of the pair `(descriptor, chain)` —
identical inputs always yield byte-identical requests. -/
theorem c5_build_request_deterministic (d₁ d₂ : TargetDescriptor)
    (c₁ c₂ : List Inspection.FunctionLocation) (hd : d₁ = d₂) (hc : c₁ = c₂) :
    build_request d₁ c₁ = build_request d₂ c₂ := by
  rw [hd, hc]

/-- Witness for C5 at a concrete descriptor and chain. -/
theorem c5_build_request_deterministic_witness :
    build_request exDesc exChain12 = build_request exDesc exChain12 :=
  c5_build_request_deterministic exDesc exDesc exChain12 exChain12 rfl rfl

/-- C6: a chain longer than 10 frames is truncated to exactly its last 10
frames (oldest dropped first), kept in their original root-to-leaf order;
a chain of at most 10 frames is kept whole; and the built request renders
exactly the retained frames, in order, as the final section of its system
instructions. -/
theorem c6_chain_truncation (chain : List Inspection.FunctionLocation) :
    (chain.length > 10 →
      limitedCallStack chain = chain.drop (chain.length - 10) ∧
        (limitedCallStack chain).length = 10) ∧
    (chain.length ≤ 10 → limitedCallStack chain = chain) ∧
    (∀ d : TargetDescriptor,
      (build_request d chain).system_instructions =
        (systemPreamble ++ callStackContextBeforeFrames d chain) ++
          renderFrames (limitedCallStack chain)) := by
  refine ⟨?_, ?_, ?_⟩
  · intro h
    rw [limitedCallStack, if_pos h]
    exact ⟨rfl, by rw [List.length_drop]; omega⟩
  · intro h
    rw [limitedCallStack, if_neg (by omega)]
  · intro d
    show systemPreamble ++ (callStackContextBeforeFrames d chain ++ _) = _
    rw [String.append_assoc]

/-- Witness for C6 at a concrete 12-frame chain. -/
theorem c6_chain_truncation_witness :
    limitedCallStack exChain12 = exChain12.drop (exChain12.length - 10) ∧
      (limitedCallStack exChain12).length = 10 :=
  (c6_chain_truncation exChain12).1 (by decide)

/-- C1: after an ephemeral patch succeeds, every reference that resolved to
the patched function's identity before the patch executes the candidate's
body on its next call; the identity itself is preserved (no other heap
entry changes). -/
theorem c1_identity_preservation (heap : ReplaceImpl.Heap) (fid : Nat)
    (mod : CompiledModule) (c : ReplaceImpl.CodeObject)
    (env : String → Option Nat) (n₁ n₂ : String) (args : List Int)
    (hfind : findFuncCode mod.co_consts = some c)
    (hmatch : _parameter_structures_match ⟨(heap fid).code.params⟩ ⟨c.params⟩ = true)
    (h₁ : env n₁ = some fid) (h₂ : env n₂ = some fid) :
    ∃ heap', ReplaceImpl.replace_function_implementation heap fid mod = Except.ok heap' ∧
      callByName env heap' n₁ args = some (c.run args) ∧
      callByName env heap' n₂ args = some (c.run args) ∧
      ∀ j, j ≠ fid → heap' j = heap j := by
  refine ⟨fun j => if j = fid then { code := c } else heap j, ?_, ?_, ?_, ?_⟩
  · simp [ReplaceImpl.replace_function_implementation, hfind, hmatch]
  · simp [callByName, h₁, callFunc]
  · simp [callByName, h₂, callFunc]
  · intro j hj
    simp [hj]

/-- Witness for C1: patching the two-parameter `add` (sum) with the
product-returning candidate makes both the original name and the
previously captured alias return `3 * 4 = 12`. -/
theorem c1_identity_preservation_witness :
    ∃ heap', ReplaceImpl.replace_function_implementation exHeapAdd 0 mulMod = Except.ok heap' ∧
      callByName exEnvAdd heap' "add" [3, 4] = some 12 ∧
      callByName exEnvAdd heap' "original_add_reference" [3, 4] = some 12 ∧
      ∀ j, j ≠ 0 → heap' j = exHeapAdd j :=
  c1_identity_preservation exHeapAdd 0 mulMod mulCode exEnvAdd "add"
    "original_add_reference" [3, 4] rfl rfl rfl rfl

/-- C2: the validator accepts a parsed candidate iff its parameter count
equals the original's — names, defaults and annotations have no influence
— and a count mismatch makes the ephemeral patch fail with the mismatch
error, while an equal count lets it succeed. -/
theorem c2_arity_only_validation (orig cand : Signature)
    (heap : ReplaceImpl.Heap) (fid : Nat) (mod : CompiledModule)
    (c : ReplaceImpl.CodeObject)
    (hfind : findFuncCode mod.co_consts = some c)
    (horig : (heap fid).code.params = orig.parameters)
    (hcand : c.params = cand.parameters) :
    (_parameter_structures_match orig cand = true ↔
      orig.parameters.length = cand.parameters.length) ∧
    (orig.parameters.length ≠ cand.parameters.length →
      ReplaceImpl.replace_function_implementation heap fid mod =
        Except.error ReplaceError.parameterMismatch) ∧
    (orig.parameters.length = cand.parameters.length →
      ∃ heap', ReplaceImpl.replace_function_implementation heap fid mod =
        Except.ok heap') := by
  refine ⟨?_, ?_, ?_⟩
  · simp [_parameter_structures_match]
  · intro hne
    simp [ReplaceImpl.replace_function_implementation, hfind,
      _parameter_structures_match, horig, hcand, hne]
  · intro heq
    refine ⟨fun j => if j = fid then { code := c } else heap j, ?_⟩
    simp [ReplaceImpl.replace_function_implementation, hfind,
      _parameter_structures_match, horig, hcand, heq]

/-- Witness for C2: a candidate with the same count but renamed, retyped
parameters with new defaults is accepted. -/
theorem c2_arity_only_validation_witness :
    (Signature.mk addCode.params).parameters.length = exSigRenamed.parameters.length ∧
    ∃ heap', ReplaceImpl.replace_function_implementation exHeapAdd 0 renamedMod =
      Except.ok heap' :=
  ⟨by decide,
   (c2_arity_only_validation ⟨addCode.params⟩ exSigRenamed exHeapAdd 0 renamedMod
      renamedCode rfl rfl rfl).2.2 (by decide)⟩

/-- C3 counterexample: a candidate containing two top-level callable
definitions is not rejected — the patch succeeds and installs the first
definition's body — refuting the claim that more than one top-level
definition fails with the malformed-candidate error. -/
theorem c3_counterexample_two_defs_applied :
    countFuncDefs twoDefMod = 2 ∧
    ∃ heap', ReplaceImpl.replace_function_implementation zeroArgHeap 0 twoDefMod =
      Except.ok heap' ∧ callFunc heap' 0 [] = 1 :=
  ⟨rfl, _, rfl, rfl⟩

/-- C3 as amended: the ephemeral patch fails with the no-function-found
error iff the candidate contains zero top-level callable definitions;
when at least one exists, the first one found is used instead. -/
theorem c3_amended_malformed_iff_zero (heap : ReplaceImpl.Heap) (fid : Nat)
    (mod : CompiledModule) :
    ReplaceImpl.replace_function_implementation heap fid mod =
      Except.error ReplaceError.noFunctionFound ↔ countFuncDefs mod = 0 := by
  rw [countFuncDefs, ← findFuncCode_none_iff]
  cases hf : findFuncCode mod.co_consts with
  | none => simp [ReplaceImpl.replace_function_implementation, hf]
  | some c =>
    simp only [ReplaceImpl.replace_function_implementation, hf]
    constructor
    · intro h
      split at h <;> simp_all
    · intro h
      simp at h

/-- C8 counterexample: `collections.OrderedDict` is a standard-library
type by the spec's classification, yet the extractor reports it in the
custom-type list, because `_is_builtin_type` only excludes membership of
the builtin tuple and the modules `builtins` and `typing`. -/
theorem c8_counterexample_stdlib_reported :
    specIsBuiltinOrStdlib orderedDictTy = true ∧
    extractCustomTypes orderedDictTy ≠ [] := by
  constructor
  · rfl
  · simp [orderedDictTy, extractCustomTypes, _is_builtin_type, mkCustomTypeInfo]

/-- C8 as amended: a resolved leaf type is reported as custom iff
`_is_builtin_type` rejects it, i.e. iff it is not `None`, not a member of
the hard-coded builtin tuple, and its module is neither `builtins` nor
`typing`; standard-library types from any other module are reported as
custom. Containers recurse into their components and `None` yields
nothing. -/
theorem c8_amended_classification :
    (∀ n m b s, extractCustomTypes (PyType.leaf n m b s) = [] ↔
      _is_builtin_type (PyType.leaf n m b s) = true) ∧
    (∀ n m b s, _is_builtin_type (PyType.leaf n m b s) = false →
      extractCustomTypes (PyType.leaf n m b s) = [mkCustomTypeInfo n s]) ∧
    extractCustomTypes PyType.noneTy = [] ∧
    (∀ args, extractCustomTypes (PyType.generic args) =
      (args.map extractCustomTypes).flatten) := by
  refine ⟨?_, ?_, ?_, ?_⟩
  · intro n m b s
    by_cases h : _is_builtin_type (PyType.leaf n m b s) = true
    · simp [extractCustomTypes, h]
    · simp [extractCustomTypes, h]
  · intro n m b s h
    simp [extractCustomTypes, h]
  · simp [extractCustomTypes]
  · intro args
    rw [extractCustomTypes]
    rw [List.attach_map_coe]

/-- Witness for C8 (amended) at a concrete non-stdlib custom leaf. -/
theorem c8_amended_classification_witness :
    extractCustomTypes (PyType.leaf "Token" (some "tokenizer") false none) =
      [mkCustomTypeInfo "Token" none] :=
  c8_amended_classification.2.1 "Token" (some "tokenizer") false none rfl

/-- C7: given a candidate that passes the initial `def `-shape check, the
durable replacement fails with the stale-location error exactly when the
recorded range is invalid for the current file (`start_line < 1` or
`end_line` beyond the file's line count); with a valid range no error is
raised and the splice proceeds. -/
theorem c7_stale_location_iff (loc : Inspection.FunctionLocation)
    (impl : Replacement.PyStr) (lines : List Replacement.PyStr)
    (hdef : pyStartsWith "def ".toList (pyStrip impl) = true) :
    (Replacement.replace_function_implementation loc impl lines =
        Except.error DurableError.staleLocation ↔
      loc.start_line < 1 ∨ loc.end_line > (lines.length : Int)) ∧
    (¬ (loc.start_line < 1 ∨ loc.end_line > (lines.length : Int)) →
      Replacement.replace_function_implementation loc impl lines =
        Except.ok (lines.take (loc.start_line - 1).toNat ++
          reflowedLines impl ( _get_indent (loc.source_lines.headD "").toList) ++
          lines.drop loc.end_line.toNat)) := by
  have hdef' : pyStartsWith ['d', 'e', 'f', ' '] (pyStrip impl) = true := hdef
  by_cases hrange : loc.start_line < 1 ∨ loc.end_line > (lines.length : Int)
  · refine ⟨?_, fun h => absurd hrange h⟩
    simp [Replacement.replace_function_implementation, hdef', hrange]
  · have hok := replace_ok_of_valid loc impl lines hdef hrange
    refine ⟨?_, fun _ => hok⟩
    rw [hok]
    simp [hrange]

/-- Witness for C7 at a concrete valid location, candidate and file. -/
theorem c7_stale_location_iff_witness :
    (Replacement.replace_function_implementation exLoc4 exImpl5 exFileLines =
        Except.error DurableError.staleLocation ↔
      exLoc4.start_line < 1 ∨ exLoc4.end_line > (exFileLines.length : Int)) ∧
    (¬ (exLoc4.start_line < 1 ∨ exLoc4.end_line > (exFileLines.length : Int)) →
      Replacement.replace_function_implementation exLoc4 exImpl5 exFileLines =
        Except.ok (exFileLines.take (exLoc4.start_line - 1).toNat ++
          reflowedLines exImpl5 ( _get_indent (exLoc4.source_lines.headD "").toList) ++
          exFileLines.drop exLoc4.end_line.toNat)) :=
  c7_stale_location_iff exLoc4 exImpl5 exFileLines (by decide)

/-- C10: a candidate whose stripped text does not begin with `def ` (for
example an `async def` or a decorated definition) makes the durable
replacement fail with the not-a-function-definition error — the first
check, made before the file content is consulted — and the file content
stays unchanged. -/
theorem c10_non_def_candidate_rejected (loc : Inspection.FunctionLocation)
    (impl : Replacement.PyStr) (lines : List Replacement.PyStr)
    (hdef : pyStartsWith "def ".toList (pyStrip impl) = false) :
    Replacement.replace_function_implementation loc impl lines =
      Except.error DurableError.notAFunctionDef ∧
    applied_file loc impl lines = lines := by
  have hdef' : pyStartsWith ['d', 'e', 'f', ' '] (pyStrip impl) = false := hdef
  have h1 : Replacement.replace_function_implementation loc impl lines =
      Except.error DurableError.notAFunctionDef := by
    simp [Replacement.replace_function_implementation, hdef']
  exact ⟨h1, by simp [applied_file, h1]⟩

/-- Witness for C10: an `async def` candidate is rejected and the file kept. -/
theorem c10_non_def_candidate_rejected_witness :
    Replacement.replace_function_implementation exLoc4 asyncImpl exFileLines =
      Except.error DurableError.notAFunctionDef ∧
    applied_file exLoc4 asyncImpl exFileLines = exFileLines :=
  c10_non_def_candidate_rejected exLoc4 asyncImpl exFileLines (by decide)

/-- C4: for a 10-line file whose function occupies lines 4-6, durably
applying a 5-line candidate yields the splice of the reflowed candidate
over lines 4-6: a 12-line file whose lines 1-3 are byte-identical to
before, whose lines 4-8 are exactly the candidate's lines reflowed to the
original function's first-line indent, and whose remaining lines are the
original lines 7-10, immediately following and unchanged. -/
theorem c4_durable_range_integrity (lines : List Replacement.PyStr)
    (loc : Inspection.FunctionLocation) (impl : Replacement.PyStr)
    (hlen : lines.length = 10) (hs : loc.start_line = 4) (he : loc.end_line = 6)
    (hdef : pyStartsWith "def ".toList (pyStrip impl) = true)
    (h5 : (splitlines impl).length = 5) :
    Replacement.replace_function_implementation loc impl lines =
      Except.ok (lines.take 3 ++
        reflowedLines impl ( _get_indent (loc.source_lines.headD "").toList) ++
        lines.drop 6) ∧
    (lines.take 3 ++
      reflowedLines impl ( _get_indent (loc.source_lines.headD "").toList) ++
      lines.drop 6).length = 12 ∧
    (lines.take 3 ++
      reflowedLines impl ( _get_indent (loc.source_lines.headD "").toList) ++
      lines.drop 6).take 3 = lines.take 3 ∧
    ((lines.take 3 ++
      reflowedLines impl ( _get_indent (loc.source_lines.headD "").toList) ++
      lines.drop 6).drop 3).take 5 =
        reflowedLines impl ( _get_indent (loc.source_lines.headD "").toList) ∧
    (lines.take 3 ++
      reflowedLines impl ( _get_indent (loc.source_lines.headD "").toList) ++
      lines.drop 6).drop 8 = lines.drop 6 := by
  have hrange : ¬ (loc.start_line < 1 ∨ loc.end_line > (lines.length : Int)) := by
    rw [hs, he, hlen]
    decide
  have hok := replace_ok_of_valid loc impl lines hdef hrange
  rw [hs, he] at hok
  have hA : (lines.take 3).length = 3 := by
    simp [List.length_take, hlen]
  have hB : (reflowedLines impl
      ( _get_indent (loc.source_lines.headD "").toList)).length = 5 := by
    rw [reflowedLines, List.length_mapIdx, h5]
  have hC : (lines.drop 6).length = 4 := by
    simp [List.length_drop, hlen]
  refine ⟨hok, ?_, ?_, ?_, ?_⟩
  · rw [List.length_append, List.length_append, hA, hB, hC]
  · rw [List.append_assoc]
    exact List.take_left' hA
  · rw [List.append_assoc, List.drop_left' hA]
    exact List.take_left' hB
  · have hAB : (lines.take 3 ++
        reflowedLines impl
          ( _get_indent (loc.source_lines.headD "").toList)).length = 8 := by
      rw [List.length_append, hA, hB]
    exact List.drop_left' hAB

/-- Witness for C4 at a concrete 10-line file, 4-6 location and 5-line
candidate. -/
theorem c4_durable_range_integrity_witness :
    Replacement.replace_function_implementation exLoc4 exImpl5 exFileLines =
      Except.ok (exFileLines.take 3 ++
        reflowedLines exImpl5 ( _get_indent (exLoc4.source_lines.headD "").toList) ++
        exFileLines.drop 6) ∧
    (exFileLines.take 3 ++
      reflowedLines exImpl5 ( _get_indent (exLoc4.source_lines.headD "").toList) ++
      exFileLines.drop 6).length = 12 ∧
    (exFileLines.take 3 ++
      reflowedLines exImpl5 ( _get_indent (exLoc4.source_lines.headD "").toList) ++
      exFileLines.drop 6).take 3 = exFileLines.take 3 ∧
    ((exFileLines.take 3 ++
      reflowedLines exImpl5 ( _get_indent (exLoc4.source_lines.headD "").toList) ++
      exFileLines.drop 6).drop 3).take 5 =
        reflowedLines exImpl5 ( _get_indent (exLoc4.source_lines.headD "").toList) ∧
    (exFileLines.take 3 ++
      reflowedLines exImpl5 ( _get_indent (exLoc4.source_lines.headD "").toList) ++
      exFileLines.drop 6).drop 8 = exFileLines.drop 6 :=
  c4_durable_range_integrity exFileLines exLoc4 exImpl5 rfl rfl rfl (by decide)
    (by decide)

end Claims
